import Mathlib

/-!
Shallow embedding of the live-inference pipeline of the Weed-Detector
repository (src/App.tsx, src/services/geminiService.ts, src/types.ts).

Numbers (confidences, normalized coordinates, percentages) are modelled
as rationals.  JavaScript `undefined`-able fields are modelled as
`Option`; an *empty array* is truthy in JavaScript, so `some []` and
`none` are distinguished exactly as the source distinguishes `[]` from
`undefined`.  Stateful handlers become functions from state to state.
Values a closure captures from a render are modelled as captured: the
inference-loop effect has dependency array [stream] (App.tsx line 257),
so the interval callback's isLiveInferencing read is the value captured
when the effect ran, while the effect-local isMounted variable is a
live mutable binding shared with the effect's cleanup.
-/

/-- Dataset context argument of analyzeWeedImage ('Cotton' | 'Beet'). -/
inductive Dataset where
  | Cotton
  | Beet
deriving DecidableEq

/-- cropContext field of EcoAnalysis (src/types.ts). -/
inductive CropContext where
  | Cotton
  | Beet
  | Unknown
deriving DecidableEq

/-- weedDensity field of EcoAnalysis (src/types.ts). -/
inductive WeedDensity where
  | Low
  | Medium
  | High
deriving DecidableEq

/-- DetectionResult (src/types.ts): weedType, confidence, optional bbox
[ymin, xmin, ymax, xmax], description. -/
structure DetectionResult where
  weedType : String
  confidence : ℚ
  bbox : Option (List ℚ)
  description : String
deriving DecidableEq

/-- EcoAnalysis (src/types.ts).  `detections` is `Option` because the
JSON parsed in geminiService.ts may lack the field entirely, and both
App.tsx and geminiService.ts test it for truthiness before use. -/
structure EcoAnalysis where
  cropContext : CropContext
  weedDensity : WeedDensity
  remediationAdvice : String
  estimatedYieldLoss : ℚ
  herbicideDosage : ℚ
  detections : Option (List DetectionResult)
deriving DecidableEq

/-- A detection as parsed from the model response in geminiService.ts:
the schema names the box field box_2d, and the service copies
`bbox: d.box_2d || d.bbox` before returning. -/
structure ParsedDetection where
  weedType : String
  confidence : ℚ
  description : String
  box_2d : Option (List ℚ)
  bbox : Option (List ℚ)
deriving DecidableEq

/-- The successfully parsed JSON body of a model response
(geminiService.ts lines 79-93). -/
structure ParsedResponse where
  cropContext : CropContext
  weedDensity : WeedDensity
  remediationAdvice : String
  estimatedYieldLoss : ℚ
  herbicideDosage : ℚ
  detections : Option (List ParsedDetection)
deriving DecidableEq

/-- A JavaScript error value as inspected by the catch handler of
analyzeWeedImage: optional message string and optional status that is
either a number or a string. -/
structure JsError where
  message : Option String
  status : Option (ℕ ⊕ String)
deriving DecidableEq

/-- Outcome of the network/parse portion of analyzeWeedImage, i.e.
everything inside its try block that can vary:
`success` = response arrived with text and JSON.parse succeeded;
`noText`  = response arrived without text (the code throws
            "No response text from Gemini", caught by its own catch);
`parseFailure` = JSON.parse threw (malformed / non-JSON body; the
            SyntaxError message is not a 429 marker);
`thrown`  = the API call itself rejected with the given error. -/
inductive RawOutcome where
  | success (data : ParsedResponse)
  | noText
  | parseFailure
  | thrown (e : JsError)
deriving DecidableEq

/-- Decides whether the list `pat` is an initial segment of the second
list (character-wise equality). -/
def charsStart : List Char → List Char → Bool
  | [], _ => true
  | _ :: _, [] => false
  | p :: ps, c :: cs => p == c && charsStart ps cs

/-- JavaScript String.prototype.includes on exploded strings: `pat`
occurs contiguously somewhere in the second list. -/
def charsInclude (pat : List Char) : List Char → Bool
  | [] => pat.isEmpty
  | c :: cs => charsStart pat (c :: cs) || charsInclude pat cs

/-- `s.includes(pat)` (case-sensitive), as used on error messages in
geminiService.ts line 99. -/
def strContains (s pat : String) : Bool := charsInclude pat.data s.data

/-- `s.toLowerCase().includes(pat)`, as used on device labels in
App.tsx lines 60-62. -/
def lowerContains (s pat : String) : Bool :=
  charsInclude pat.data (s.data.map Char.toLower)

/-- The rate-limit test of the catch handler (geminiService.ts line 99):
error.message?.includes("429") || error.status === 429
|| error.status === "RESOURCE_EXHAUSTED". -/
def is429 (e : JsError) : Bool :=
  (match e.message with
   | some m => strContains m "429"
   | none => false)
  || e.status == some (Sum.inl 429)
  || e.status == some (Sum.inr "RESOURCE_EXHAUSTED")

/-- The function parameter datasetContext reused as the fallback's
cropContext field. -/
def datasetCrop : Dataset → CropContext
  | .Cotton => CropContext.Cotton
  | .Beet => CropContext.Beet

/-- The fallback returned on a recognized rate-limit error
(geminiService.ts lines 100-109). -/
def rateLimitFallback (ctx : Dataset) : EcoAnalysis :=
  { cropContext := datasetCrop ctx
    weedDensity := .Low
    remediationAdvice := "System is optimizing API usage (Rate Limit Reached). Analysis will resume momentarily."
    estimatedYieldLoss := 0
    herbicideDosage := 0
    detections := some [] }

/-- The fallback returned on any other failure
(geminiService.ts lines 111-121). -/
def errorFallback (ctx : Dataset) : EcoAnalysis :=
  { cropContext := datasetCrop ctx
    weedDensity := .Low
    remediationAdvice := "Connection unstable. Retrying inference..."
    estimatedYieldLoss := 0
    herbicideDosage := 0
    detections := some [] }

/-- `bbox: d.box_2d || d.bbox` (geminiService.ts line 90): box_2d wins
whenever present (an empty array is truthy in JavaScript, matching
`some []`). -/
def mapParsedDetection (d : ParsedDetection) : DetectionResult :=
  { weedType := d.weedType
    confidence := d.confidence
    bbox := match d.box_2d with
            | some b => some b
            | none => d.bbox
    description := d.description }

/-- The success path of analyzeWeedImage: if the parsed data has a
detections field, rewrite each detection's bbox from box_2d
(geminiService.ts lines 86-93). -/
def applyBoxMapping (r : ParsedResponse) : EcoAnalysis :=
  { cropContext := r.cropContext
    weedDensity := r.weedDensity
    remediationAdvice := r.remediationAdvice
    estimatedYieldLoss := r.estimatedYieldLoss
    herbicideDosage := r.herbicideDosage
    detections := r.detections.map (fun ds => ds.map mapParsedDetection) }

/-- analyzeWeedImage (src/services/geminiService.ts lines 7-122) as a
function of the abstract network/parse outcome.  Every failure path is
caught by the function's own catch handler, so the embedding is a total
function into EcoAnalysis — the source never lets an exception escape.
The throw on missing response text and a JSON.parse SyntaxError both
reach the same catch with messages that carry no 429 marker, hence the
generic fallback. -/
def analyzeWeedImage (outcome : RawOutcome) (ctx : Dataset) : EcoAnalysis :=
  match outcome with
  | .success data => applyBoxMapping data
  | .noText => errorFallback ctx
  | .parseFailure => errorFallback ctx
  | .thrown e => if is429 e then rateLimitFallback ctx else errorFallback ctx

/-- True on every outcome on which the source takes a fallback path
instead of returning parsed data. -/
def isFailure : RawOutcome → Bool
  | .success _ => false
  | _ => true

/-- One entry of the liveDetections state (App.tsx line 34):
{id, x, y, w, h, label, conf}; x/y/w/h are viewport percentages. -/
structure LiveBox where
  id : ℕ
  x : ℚ
  y : ℚ
  w : ℚ
  h : ℚ
  label : String
  conf : ℚ
deriving DecidableEq

/-- The component state relevant to the live view (App.tsx lines 29-40):
whether a stream is active, the in-flight flag isLiveInferencing, the
displayed boxes, and the known / hidden weed-type sets (JavaScript Sets
modelled as insertion-ordered duplicate-free lists). -/
structure LiveState where
  stream : Bool
  isLiveInferencing : Bool
  liveDetections : List LiveBox
  detectedWeedTypes : List String
  disabledWeedTypes : List String
deriving DecidableEq

/-- One iteration of the forEach in the setDetectedWeedTypes updater
(App.tsx lines 213-219): add the detection's weedType when new and
raise the changed flag. -/
def recordStep (acc : List String × Bool) (d : DetectionResult) : List String × Bool :=
  if d.weedType ∈ acc.1 then acc else (acc.1 ++ [d.weedType], true)

/-- The whole functional updater body (App.tsx lines 211-221): fold the
batch over the previous known set, starting with changed = false.  The
updater then returns the new set when changed and the previous object
otherwise. -/
def recordCategories (prev : List String) (dets : List DetectionResult) : List String × Bool :=
  dets.foldl recordStep (prev, false)

/-- `return changed ? newSet : prev` (App.tsx line 220): the value the
known-category state actually takes after the updater runs. -/
def applyRecord (prev : List String) (dets : List DetectionResult) : List String :=
  let r := recordCategories prev dets
  if r.2 then r.1 else prev

/-- The per-detection body of the mappedDetections map (App.tsx lines
224-235): detections whose bbox is absent or shorter than 4 entries
become null and are filtered out; otherwise destructure
[ymin, xmin, ymax, xmax] and convert to viewport percentages. -/
def mapDetection (idVal : ℕ) (d : DetectionResult) : Option LiveBox :=
  match d.bbox with
  | some (ymin :: xmin :: ymax :: xmax :: _) =>
      some { id := idVal
             x := xmin * 100
             y := ymin * 100
             w := (xmax - xmin) * 100
             h := (ymax - ymin) * 100
             label := d.weedType
             conf := d.confidence }
  | _ => none

/-- mappedDetections (App.tsx lines 224-236): map with index, id =
Date.now() + i (Date.now() passed in as `now`), then filter(Boolean). -/
def mapDetections (now : ℕ) (dets : List DetectionResult) : List LiveBox :=
  dets.enum.filterMap (fun p => mapDetection (now + p.1) p.2)

/-- The continuation of captureFrameAndAnalyze after the awaited
analyzeWeedImage call returns `result` (App.tsx lines 209-245):
if isMounted and result.detections is truthy, record its categories and
replace liveDetections wholesale; the finally block clears the
in-flight flag when still mounted. -/
def dispatchComplete (mounted : Bool) (now : ℕ) (result : EcoAnalysis)
    (s : LiveState) : LiveState :=
  let s1 :=
    if mounted then
      match result.detections with
      | some dets =>
          { s with
            detectedWeedTypes := applyRecord s.detectedWeedTypes dets
            liveDetections := mapDetections now dets }
      | none => s
    else s
  if mounted then { s1 with isLiveInferencing := false } else s1

/-- What the synchronous prefix of a sampler tick did. -/
inductive TickResult where
  | noSession
  | notReady
  | dispatched
deriving DecidableEq

/-- Number of dispatch calls a tick outcome performed. -/
def tickDispatchCount : TickResult → ℕ
  | .dispatched => 1
  | _ => 0

/-- The synchronous prefix of captureFrameAndAnalyze up to the awaited
dispatch (App.tsx lines 179-207).  The guard at line 180 reads the
isLiveInferencing const that the interval's closure captured when its
effect last ran: the effect's dependency array is [stream] only (line
257), so setIsLiveInferencing never reaches this closure and the guard
tests the captured value — passed here as `captured` — not the live
state.  When the guard passes, the live in-flight flag is set; if the
video lacks buffered data (readyState !== 4) it is cleared again and
the tick skips; otherwise the frame is captured, encoded and dispatched
with the live flag left set. -/
def tickStart (hasVideo ready captured : Bool) (s : LiveState) : LiveState × TickResult :=
  if !hasVideo || !s.stream || captured then
    (s, .noSession)
  else if !ready then
    ({ s with isLiveInferencing := false }, .notReady)
  else
    ({ s with isLiveInferencing := true }, .dispatched)

/-- The state owned by the inference-loop effect (App.tsx lines
175-257): the isMounted variable (a plain let binding mutated by the
cleanup, so reads of it are live), whether the interval timer is
registered, the isLiveInferencing value the closure captured at the
render where the effect ran (stale for the closure's whole lifetime,
since the dependency array is [stream] only), and the component
state. -/
structure EffectState where
  isMounted : Bool
  timerActive : Bool
  capturedInferencing : Bool
  app : LiveState
deriving DecidableEq

/-- Stopping a session: the stop branch of toggleCamera (App.tsx lines
119-124) nulls the stream, clears liveDetections and resets
detectedWeedTypes to an empty set; the stream change reruns the
inference effect, whose cleanup (App.tsx lines 253-256) sets
isMounted = false and clears the interval. -/
def stopSession (e : EffectState) : EffectState :=
  { isMounted := false
    timerActive := false
    capturedInferencing := e.capturedInferencing
    app := { e.app with
             stream := false
             liveDetections := []
             detectedWeedTypes := [] } }

/-- A scheduled timer tick firing: the interval callback runs only
while the registration is live (clearInterval removes it), in which
case it executes the synchronous tick prefix.  Returns the number of
dispatch calls performed. -/
def fireTick (hasVideo ready : Bool) (e : EffectState) : EffectState × ℕ :=
  if e.timerActive then
    let p := tickStart hasVideo ready e.capturedInferencing e.app
    ({ e with app := p.1 }, tickDispatchCount p.2)
  else (e, 0)

/-- An in-flight dispatch completing at the effect level: the
continuation reads the effect's isMounted closure variable. -/
def completeInFlight (now : ℕ) (result : EcoAnalysis) (e : EffectState) : EffectState :=
  { e with app := dispatchComplete e.isMounted now result e.app }

/-- The rendered region list (App.tsx lines 595-596):
liveDetections.filter(box => !disabledWeedTypes.has(box.label)). -/
def visibleRegions (boxes : List LiveBox) (disabled : List String) : List LiveBox :=
  boxes.filter (fun box => !(disabled.contains box.label))

/-- One enumerated video-input device (deviceId, label). -/
structure MediaDeviceInfo where
  deviceId : String
  label : String
deriving DecidableEq

/-- The predicate of the mobileCam search (App.tsx lines 59-63): the
label, lowercased, contains "back" or "virtual" or "phone". -/
def isMobileLabel (label : String) : Bool :=
  lowerContains label "back" || lowerContains label "virtual" || lowerContains label "phone"

/-- The no-device-selected branch of getDevices (App.tsx lines 58-65):
with a non-empty device list, pick the first device whose label matches
the mobileCam predicate, else the first device. -/
def selectNewDevice (inputs : List MediaDeviceInfo) : Option String :=
  match inputs with
  | [] => none
  | d0 :: rest =>
      match (d0 :: rest).find? (fun d => isMobileLabel d.label) with
      | some d => some d.deviceId
      | none => some d0.deviceId

/-- A concrete displayed region labelled "Fat Hen". -/
def fatHenBox : LiveBox :=
  { id := 1, x := 10, y := 10, w := 5, h := 5, label := "Fat Hen", conf := 9/10 }

/-- A concrete displayed region labelled "Redshank". -/
def redshankBox : LiveBox :=
  { id := 2, x := 50, y := 40, w := 6, h := 7, label := "Redshank", conf := 4/5 }

/-- A live state that is mid-session with one displayed region. -/
def sPrior : LiveState :=
  { stream := true
    isLiveInferencing := true
    liveDetections := [fatHenBox]
    detectedWeedTypes := ["Fat Hen"]
    disabledWeedTypes := [] }

/-- A fresh live session with nothing detected yet. -/
def sFresh : LiveState :=
  { stream := true
    isLiveInferencing := false
    liveDetections := []
    detectedWeedTypes := []
    disabledWeedTypes := [] }

/-- A detection whose bounding box has fewer than 4 entries. -/
def dShort : DetectionResult :=
  { weedType := "Fat Hen", confidence := 1/2, bbox := some [1/2], description := "" }

/-- A batch consisting of the single short-box detection. -/
def detsShort : List DetectionResult := [dShort]

/-- An analyzer result carrying that batch. -/
def resShort : EcoAnalysis :=
  { cropContext := .Beet
    weedDensity := .Low
    remediationAdvice := ""
    estimatedYieldLoss := 0
    herbicideDosage := 0
    detections := some detsShort }

/-- A detection carrying the bounding box [0.1, 0.2, 0.4, 0.6] of the
spec's geometry example. -/
def bboxSample : DetectionResult :=
  { weedType := "Fat Hen"
    confidence := 9/10
    bbox := some [1/10, 1/5, 2/5, 3/5]
    description := "" }

/-- A batch whose only category is already the known one. -/
def detsKnown : List DetectionResult :=
  [{ weedType := "Fat Hen", confidence := 1/2, bbox := none, description := "" }]

/-- A rejected API call whose error message mentions 429. -/
def errThrown : RawOutcome := .thrown { message := some "429", status := none }

/-- A rejected API call with a numeric 429 status. -/
def err429 : RawOutcome := .thrown { message := none, status := some (Sum.inl 429) }

/-- A device whose label matches the "virtual" keyword. -/
def deviceVirtual : MediaDeviceInfo := { deviceId := "v1", label := "virtual" }

/-- A device whose label matches the "back" keyword. -/
def deviceBack : MediaDeviceInfo := { deviceId := "b1", label := "back" }

/-- A device whose label matches no keyword. -/
def deviceLaptop : MediaDeviceInfo := { deviceId := "a1", label := "integrated cam" }

/- Helper lemmas about the category-recording fold. -/

/-- Membership in the accumulated known set is preserved by the fold. -/
theorem mem_foldl_recordStep (dets : List DetectionResult) (acc : List String × Bool)
    (c : String) (hc : c ∈ acc.1) : c ∈ (dets.foldl recordStep acc).1 := by
  induction dets generalizing acc with
  | nil => exact hc
  | cons d t ih =>
      simp only [List.foldl_cons]
      apply ih
      unfold recordStep
      split
      · exact hc
      · exact List.mem_append_left _ hc

/-- Every category of the batch ends up in the accumulated known set. -/
theorem weedType_mem_foldl (dets : List DetectionResult) (acc : List String × Bool)
    (d : DetectionResult) (hd : d ∈ dets) : d.weedType ∈ (dets.foldl recordStep acc).1 := by
  induction dets generalizing acc with
  | nil => cases hd
  | cons d0 t ih =>
      simp only [List.foldl_cons]
      rcases List.mem_cons.1 hd with h | h
      · subst h
        apply mem_foldl_recordStep
        unfold recordStep
        split
        · assumption
        · exact List.mem_append_right _ (by simp)
      · exact ih _ h

/-- If every category in the batch is already known, the fold is the
identity: nothing is added and the changed flag is untouched. -/
theorem foldl_recordStep_noop (dets : List DetectionResult) (acc : List String × Bool)
    (h : ∀ d ∈ dets, d.weedType ∈ acc.1) : dets.foldl recordStep acc = acc := by
  induction dets generalizing acc with
  | nil => rfl
  | cons d t ih =>
      have hd : d.weedType ∈ acc.1 := h d (by simp)
      have hstep : recordStep acc d = acc := by unfold recordStep; simp [hd]
      simp only [List.foldl_cons, hstep]
      exact ih acc (fun x hx => h x (by simp [hx]))

/-- Once raised, the changed flag stays raised through the fold. -/
theorem foldl_recordStep_flag (dets : List DetectionResult) (acc : List String × Bool)
    (h : acc.2 = true) : (dets.foldl recordStep acc).2 = true := by
  induction dets generalizing acc with
  | nil => exact h
  | cons d t ih =>
      simp only [List.foldl_cons]
      apply ih
      unfold recordStep
      split
      · exact h
      · rfl

/-- A fold that ends with the changed flag down did nothing. -/
theorem foldl_recordStep_of_flag_false (dets : List DetectionResult)
    (acc : List String × Bool) (h : (dets.foldl recordStep acc).2 = false) :
    dets.foldl recordStep acc = acc := by
  induction dets generalizing acc with
  | nil => rfl
  | cons d t ih =>
      simp only [List.foldl_cons] at h ⊢
      by_cases hm : d.weedType ∈ acc.1
      · have hstep : recordStep acc d = acc := by unfold recordStep; simp [hm]
        rw [hstep] at h ⊢
        exact ih _ h
      · exfalso
        have hstep : recordStep acc d = (acc.1 ++ [d.weedType], true) := by
          unfold recordStep; simp [hm]
        rw [hstep] at h
        have ht := foldl_recordStep_flag t (acc.1 ++ [d.weedType], true) rfl
        rw [h] at ht
        cases ht

/-- The value the known-category state takes equals the fold's first
component, whether or not the updater short-circuited. -/
theorem applyRecord_eq (prev : List String) (dets : List DetectionResult) :
    applyRecord prev dets = (recordCategories prev dets).1 := by
  unfold applyRecord
  cases h : (recordCategories prev dets).2
  · have hid : recordCategories prev dets = (prev, false) :=
      foldl_recordStep_of_flag_false dets (prev, false) h
    simp [h, hid]
  · simp [h]

/-- find? over a concatenation whose left part is all-negative finds
the first positive element of the right part. -/
theorem find?_first_match {α : Type} (p : α → Bool) (pre : List α) (d : α) (post : List α)
    (hpre : ∀ x ∈ pre, p x = false) (hd : p d = true) :
    (pre ++ d :: post).find? p = some d := by
  induction pre with
  | nil =>
      simp only [List.nil_append]
      exact List.find?_cons_of_pos _ hd
  | cons a t ih =>
      have ha : p a = false := hpre a (by simp)
      rw [List.cons_append, List.find?_cons_of_neg _ (by simp [ha])]
      exact ih (fun x hx => hpre x (by simp [hx]))

/- Claim theorems. -/

/-- Claim C1, code bug: the in-flight guard at App.tsx line 180 reads a
stale closure capture (the effect's dependency array is [stream] only),
so it never blocks a concurrent dispatch.  On a fresh session — the
closure captured isLiveInferencing = false when the effect ran — a
first tick dispatches and raises the live in-flight flag; a second tick
arriving while that dispatch is still in flight nevertheless dispatches
again, so two ticks within one dispatch's lifetime perform TWO dispatch
calls, not the single call the claim (and the evident intent of the
guard the source itself writes) requires. -/
theorem tick_stale_double_dispatch :
    (tickStart true true false sFresh).2 = TickResult.dispatched ∧
    (tickStart true true false sFresh).1.isLiveInferencing = true ∧
    (tickStart true true false (tickStart true true false sFresh).1).2 =
      TickResult.dispatched ∧
    tickDispatchCount (tickStart true true false sFresh).2 +
      tickDispatchCount
        (tickStart true true false (tickStart true true false sFresh).1).2 = 2 :=
  ⟨rfl, rfl, rfl, rfl⟩

/-- Claim C2, counterexample: after a rate-limited dispatch the
displayed region list is NOT the prior list — the applied fallback
clears it. -/
theorem dispatch_failure_cex :
    (dispatchComplete true 0 (analyzeWeedImage errThrown Dataset.Beet) sPrior).liveDetections
      ≠ sPrior.liveDetections := by
  decide

/-- Claim C2 as amended: on any dispatch failure the cycle propagates
no exception (analyzeWeedImage totalizes every failure into a fallback
result), but because the fallback carries an empty detection list the
reconcile step replaces the displayed regions with the empty list; the
known-category set is left unchanged and the in-flight flag cleared. -/
theorem dispatch_failure_fallback (o : RawOutcome) (ctx : Dataset) (now : ℕ)
    (s : LiveState) (h : isFailure o = true) :
    dispatchComplete true now (analyzeWeedImage o ctx) s =
      { s with liveDetections := [], isLiveInferencing := false } := by
  cases o with
  | success d => simp [isFailure] at h
  | noText => rfl
  | parseFailure => rfl
  | thrown e =>
      simp only [analyzeWeedImage]
      by_cases h9 : is429 e
      · rw [if_pos h9]
        rfl
      · rw [if_neg h9]
        rfl

/-- Claim C2 witness: the amended behavior at a concrete mid-session
state and a concrete 429 rejection. -/
theorem dispatch_failure_fallback_check :
    isFailure errThrown = true ∧
    dispatchComplete true 0 (analyzeWeedImage errThrown Dataset.Beet) sPrior =
      { sPrior with liveDetections := [], isLiveInferencing := false } :=
  ⟨by decide, dispatch_failure_fallback errThrown Dataset.Beet 0 sPrior (by decide)⟩

/-- Claim C3: after stopping a session the timer registration is gone,
so a scheduled tick performs no dispatch call, and an in-flight
dispatch completing after the stop is discarded — it changes nothing,
because the continuation checks the isMounted liveness flag. -/
theorem stop_cancels_and_discards (e : EffectState) (hv r : Bool) (now : ℕ)
    (res : EcoAnalysis) :
    (fireTick hv r (stopSession e)).2 = 0 ∧
    completeInFlight now res (stopSession e) = stopSession e :=
  ⟨rfl, rfl⟩

/-- Claim C4: a raw detection with bounding box
(yMin, xMin, yMax, xMax) maps to the DisplayRegion with
left = xMin*100, top = yMin*100, width = (xMax-xMin)*100,
height = (yMax-yMin)*100 (fields x, y, w, h of the live box). -/
theorem geometry_map (idVal : ℕ) (d : DetectionResult) (ymin xmin ymax xmax : ℚ)
    (rest : List ℚ) (h : d.bbox = some (ymin :: xmin :: ymax :: xmax :: rest)) :
    mapDetection idVal d =
      some { id := idVal, x := xmin * 100, y := ymin * 100,
             w := (xmax - xmin) * 100, h := (ymax - ymin) * 100,
             label := d.weedType, conf := d.confidence } := by
  unfold mapDetection
  rw [h]

/-- Claim C4 witness: bbox [0.1, 0.2, 0.4, 0.6] yields left=20, top=10,
width=40, height=30. -/
theorem geometry_map_check :
    bboxSample.bbox = some [(1:ℚ)/10, 1/5, 2/5, 3/5] ∧
    mapDetection 0 bboxSample =
      some { id := 0, x := 20, y := 10, w := 40, h := 30,
             label := "Fat Hen", conf := 9/10 } := by
  refine ⟨rfl, ?_⟩
  rw [geometry_map 0 bboxSample (1/10) (1/5) (2/5) (3/5) [] rfl]
  simp only [Option.some.injEq, LiveBox.mk.injEq, bboxSample]
  norm_num

/-- Claim C5, counterexample: stopping a session does NOT clear the
hidden-category set — at a state hiding "Redshank", the set is still
nonempty after stop. -/
theorem stop_hidden_set_cex :
    (stopSession
      { isMounted := true
        timerActive := true
        capturedInferencing := false
        app := { stream := true
                 isLiveInferencing := false
                 liveDetections := []
                 detectedWeedTypes := ["Fat Hen", "Redshank"]
                 disabledWeedTypes := ["Redshank"] } }).app.disabledWeedTypes ≠ [] := by
  decide

/-- Claim C5 as amended: stopping a session resets the known-category
set to empty and clears the displayed region list (and the stream), but
leaves the hidden-category set unchanged. -/
theorem stop_reset_state (e : EffectState) :
    (stopSession e).app.detectedWeedTypes = [] ∧
    (stopSession e).app.liveDetections = [] ∧
    (stopSession e).app.stream = false ∧
    (stopSession e).app.disabledWeedTypes = e.app.disabledWeedTypes :=
  ⟨rfl, rfl, rfl, rfl⟩

/-- Claim C6: when every category of the batch is already known,
recordCategories returns the prior set with the changed flag down (so
no downstream notification fires); and, for any prior set, recording
the same batch a second time is always such a no-op. -/
theorem record_known_noop (K : List String) (dets : List DetectionResult) :
    ((∀ d ∈ dets, d.weedType ∈ K) → recordCategories K dets = (K, false)) ∧
    recordCategories (recordCategories K dets).1 dets =
      ((recordCategories K dets).1, false) := by
  constructor
  · intro h
    exact foldl_recordStep_noop dets (K, false) h
  · exact foldl_recordStep_noop dets ((recordCategories K dets).1, false)
      (fun d hd => weedType_mem_foldl dets (K, false) d hd)

/-- Claim C6 witness: recording an already-known batch over the set
containing exactly its category is the identity with the flag down. -/
theorem record_known_noop_check :
    (∀ d ∈ detsKnown, d.weedType ∈ ["Fat Hen"]) ∧
    recordCategories ["Fat Hen"] detsKnown = (["Fat Hen"], false) :=
  ⟨by decide, (record_known_noop ["Fat Hen"] detsKnown).1 (by decide)⟩

/-- Claim C7: the rendered list is exactly the in-order sublist of the
displayed regions whose labels are not hidden; with one "Fat Hen" and
one "Redshank" region and "Redshank" hidden, only the "Fat Hen" region
remains. -/
theorem visible_filter_spec (L : List LiveBox) (H : List String) :
    List.Sublist (visibleRegions L H) L ∧
    (∀ b, b ∈ visibleRegions L H ↔ b ∈ L ∧ b.label ∉ H) ∧
    visibleRegions [fatHenBox, redshankBox] ["Redshank"] = [fatHenBox] := by
  refine ⟨List.filter_sublist L, ?_, rfl⟩
  intro b
  simp [visibleRegions, List.mem_filter, List.contains, List.elem_iff]

/-- Claim C8, counterexample: with a "virtual"-labelled device listed
before a "back"-labelled one, the selection takes the virtual device,
not the back one the claim's preference order demands. -/
theorem device_pref_cex :
    selectNewDevice [deviceVirtual, deviceBack] = some "v1" ∧ "v1" ≠ "b1" := by
  exact ⟨by decide, by decide⟩

/-- Claim C8 as amended: for a non-empty device list with no current
selection, the code selects the FIRST device (in list order) whose
label case-insensitively contains "back", "virtual" or "phone" — with
no preference among the three keywords — and otherwise the first
listed device. -/
theorem device_first_match (ds : List MediaDeviceInfo) :
    ((∀ d ∈ ds, isMobileLabel d.label = false) →
        selectNewDevice ds = ds.head?.map (fun d => d.deviceId)) ∧
    (∀ pre d post, ds = pre ++ d :: post →
        (∀ p ∈ pre, isMobileLabel p.label = false) →
        isMobileLabel d.label = true →
        selectNewDevice ds = some d.deviceId) := by
  constructor
  · intro h
    cases ds with
    | nil => rfl
    | cons d0 rest =>
        have hnone : (d0 :: rest).find? (fun d => isMobileLabel d.label) = none :=
          List.find?_eq_none.mpr (fun x hx => by simp [h x hx])
        simp only [selectNewDevice]
        rw [hnone]
        rfl
  · intro pre d post hds hpre hd
    subst hds
    have hfind : (pre ++ d :: post).find? (fun x => isMobileLabel x.label) = some d :=
      find?_first_match _ pre d post hpre hd
    cases pre with
    | nil =>
        simp only [List.nil_append] at hfind ⊢
        simp only [selectNewDevice]
        rw [hfind]
    | cons p0 pre2 =>
        simp only [List.cons_append] at hfind ⊢
        simp only [selectNewDevice]
        rw [hfind]

/-- Claim C8 witness for the amended statement: a non-matching device
followed by a "back" device selects the "back" device. -/
theorem device_first_match_check :
    isMobileLabel deviceBack.label = true ∧
    selectNewDevice [deviceLaptop, deviceBack] = some "b1" :=
  ⟨by decide,
   (device_first_match [deviceLaptop, deviceBack]).2 [deviceLaptop] deviceBack []
     rfl (by decide) (by decide)⟩

/-- Claim C9: on a 429-equivalent rate-limit rejection — and on every
other failure outcome — analyzeWeedImage returns (rather than throws) a
result with an empty detection list, zero estimated yield loss and zero
herbicide dosage. -/
theorem analyzer_failure_zeroed (o : RawOutcome) (ctx : Dataset)
    (h : isFailure o = true) :
    (analyzeWeedImage o ctx).detections = some [] ∧
    (analyzeWeedImage o ctx).estimatedYieldLoss = 0 ∧
    (analyzeWeedImage o ctx).herbicideDosage = 0 := by
  cases o with
  | success d => simp [isFailure] at h
  | noText => exact ⟨rfl, rfl, rfl⟩
  | parseFailure => exact ⟨rfl, rfl, rfl⟩
  | thrown e =>
      simp only [analyzeWeedImage]
      by_cases h9 : is429 e
      · rw [if_pos h9]
        exact ⟨rfl, rfl, rfl⟩
      · rw [if_neg h9]
        exact ⟨rfl, rfl, rfl⟩

/-- Claim C9 witness: the zeroed fallback at a concrete numeric-429
rejection. -/
theorem analyzer_failure_zeroed_check :
    isFailure err429 = true ∧
    ((analyzeWeedImage err429 Dataset.Beet).detections = some [] ∧
     (analyzeWeedImage err429 Dataset.Beet).estimatedYieldLoss = 0 ∧
     (analyzeWeedImage err429 Dataset.Beet).herbicideDosage = 0) :=
  ⟨by decide, analyzer_failure_zeroed err429 Dataset.Beet (by decide)⟩

/-- Claim C10: in a live reconciliation step every returned detection's
category — bounding box or not — is added to the known-category set,
the displayed regions are exactly the mapped detections, and a
detection produces a region precisely when its bounding box is present
with at least 4 entries (a short box is silently dropped from
rendering). -/
theorem reconcile_categories_vs_boxes (now : ℕ) (s : LiveState) (res : EcoAnalysis)
    (dets : List DetectionResult) (hres : res.detections = some dets)
    (d : DetectionResult) (hd : d ∈ dets) :
    d.weedType ∈ (dispatchComplete true now res s).detectedWeedTypes ∧
    (dispatchComplete true now res s).liveDetections = mapDetections now dets ∧
    ∀ i, (mapDetection i d).isSome = true ↔
      ∃ bb, d.bbox = some bb ∧ 4 ≤ bb.length := by
  have hstate : dispatchComplete true now res s =
      { s with detectedWeedTypes := applyRecord s.detectedWeedTypes dets
               liveDetections := mapDetections now dets
               isLiveInferencing := false } := by
    unfold dispatchComplete
    rw [hres]
    rfl
  refine ⟨?_, ?_, ?_⟩
  · rw [hstate]
    show d.weedType ∈ applyRecord s.detectedWeedTypes dets
    rw [applyRecord_eq]
    exact weedType_mem_foldl dets (s.detectedWeedTypes, false) d hd
  · rw [hstate]
  · intro i
    rcases hbb : d.bbox with _ | (_ | ⟨y1, (_ | ⟨x1, (_ | ⟨y2, (_ | ⟨x2, rest⟩)⟩)⟩)⟩) <;>
      simp [mapDetection, hbb]

/-- Claim C10 witness: a detection whose bounding box has a single
entry still contributes its category to the known set even though it
yields no displayed region. -/
theorem reconcile_categories_vs_boxes_check :
    dShort ∈ detsShort ∧
    dShort.weedType ∈ (dispatchComplete true 0 resShort sFresh).detectedWeedTypes :=
  ⟨by simp [detsShort],
   (reconcile_categories_vs_boxes 0 sFresh resShort detsShort rfl dShort
     (by simp [detsShort])).1⟩
